import Mathlib

/-!
Shallow embedding of the concentrated-liquidity position simulator in
`src/common/positions/liquid-unit.position.ts` (class `LiquidUnitPosition`).

JavaScript `number` values are modelled as real numbers (`ℝ`); `Math.sqrt`,
`Math.log`, `Math.pow`, `Math.round`, `Math.floor`, `Math.ceil`, `Math.min`
and `Math.max` become `Real.sqrt`, `Real.log`, `zpow`/`pow`, `round`,
`Int.floor`, `Int.ceil`, `min` and `max`.  `bigint` fee-growth accumulators
are modelled as `ℤ`.  Integer-valued counters (`totalDataPoints`,
`rebalanceCount`, ...) are modelled as `ℕ`.  String fields that the code
parses (`dataPoint.tick`, prices, fee-growth accumulators) are modelled as
already-parsed numeric fields of the snapshot structure.
-/

namespace PortfolioManager

open Classical

/-- `GranularityType` from `src/common/types.ts`: `'daily' | 'hourly'`. -/
inductive Granularity where
  | daily
  | hourly
deriving DecidableEq

/-- `PositionType` from `src/common/types.ts`: `'full-range'` or a percentage
string such as `'50%'`.  A percentage string is carried as the integer that
`parseInt(positionType.replace('%', ''))` produces. -/
inductive PositionType where
  | fullRange
  | percent (k : ℤ)
deriving DecidableEq

/-- `PositionRange` from `src/common/types.ts`.  For a full-range position the
source stores `Infinity` in `priceUpper` and `rangeWidth`; no code path reads
those two fields on a full-range position (`calculateTokensAndLiquidity` uses
its own fixed wide bounds instead), so they are modelled as `0` there. -/
structure PositionRange where
  tickLower : ℝ
  tickUpper : ℝ
  rangeWidth : ℝ
  priceLower : ℝ
  priceUpper : ℝ
deriving Inhabited

/-- One element of `positionResults`: a completed sub-position record
(`duration`, `fees`, `gasCost`, `startingCapital`). -/
structure SubPosition where
  duration : ℕ
  fees : ℝ
  gasCost : ℝ
  startingCapital : ℝ

/-- A pool snapshot: union of the fields of `PoolDayData` and `PoolHourData`
that the position engine reads, with string fields already parsed
(`parseInt(dataPoint.tick)`, `parseFloat(...)`, `BigInt(...)` in the source). -/
structure DataPoint where
  date : ℝ
  periodStartUnix : ℝ
  tick : ℤ
  token0Price : ℝ
  token1Price : ℝ
  low : ℝ
  high : ℝ
  feeGrowthGlobal0X128 : ℤ
  feeGrowthGlobal1X128 : ℤ

/-- `Number.MAX_VALUE`, the initial value of `minPortfolioValue`. -/
noncomputable def numberMaxValue : ℝ := 2 ^ (1024 : ℕ) - 2 ^ (971 : ℕ)

/-- Substring test on character lists, used to model
`String.prototype.includes`. -/
def listIncludes (needle : List Char) : List Char → Bool
  | [] => needle.isPrefixOf []
  | c :: t => needle.isPrefixOf (c :: t) || listIncludes needle t

/-- `symbol.toUpperCase().includes('BTC')` from the constructor and
`update()`. -/
def includesBTC (sym : String) : Bool :=
  listIncludes "BTC".data sym.toUpper.data

/-- The mutable fields of class `LiquidUnitPosition`. -/
structure PositionState where
  initialAmount : ℝ
  currentPositionCapital : ℝ
  positionType : PositionType
  positionRange : PositionRange
  lpSharePercentage : ℝ
  tickSpacing : ℝ
  cumulativeFees : ℝ
  dataPointsInRange : ℕ
  totalDataPoints : ℕ
  rebalanceCount : ℕ
  totalGasCosts : ℝ
  lastRebalanceDataPoint : ℕ
  currentWasRebalanced : Bool
  currentPositionDataPoints : ℕ
  currentPositionFees : ℝ
  currentTimestamp : ℝ
  positionResults : List SubPosition
  currentToken0Price : ℝ
  currentToken1Price : ℝ
  initialToken0Price : ℝ
  initialToken1Price : ℝ
  currentBtcPrice : ℝ
  totalPoolLiquidity : ℝ
  poolTVL : ℝ
  token0Decimals : ℤ
  token1Decimals : ℤ
  token0Symbol : String
  token1Symbol : String
  currentTick : ℤ
  usdcAmount : ℝ
  btcAmount : ℝ
  liquidityAmount : ℝ
  maxPortfolioValue : ℝ
  minPortfolioValue : ℝ
  granularityType : Granularity
  useCompoundingAPR : Bool
  assetComposition : String
  previousFeeGrowth0X128 : ℤ
  previousFeeGrowth1X128 : ℤ

/-- `getTickFromPrice` (lines 159–166): invert the price, scale by
`10^(token1Decimals - token0Decimals)`, take `log(x)/log(1.0001)` and round to
the nearest integer. -/
noncomputable def getTickFromPrice (d0 d1 : ℤ) (price : ℝ) : ℤ :=
  let invertedPrice := 1 / price
  let valToLog := invertedPrice * (10 : ℝ) ^ (d1 - d0)
  let tickIDXRaw := Real.log valToLog / Real.log 1.0001
  round tickIDXRaw

/-- `getPositionTickRange` (lines 118–153).  The `currentTick` parameter is
kept although the source never reads it (the percent branch uses
`this.currentToken0Price`, passed here explicitly). -/
noncomputable def getPositionTickRange (d0 d1 : ℤ) (currentToken0Price : ℝ)
    (currentTick : ℤ) (positionType : PositionType) (tickSpacing : ℝ) :
    PositionRange :=
  match positionType with
  | PositionType.fullRange =>
      { tickLower := -887272, tickUpper := 887272, rangeWidth := 0,
        priceLower := 0, priceUpper := 0 }
  | PositionType.percent k =>
      let rangePercent : ℝ := (k : ℝ) / 100
      let currentPrice := currentToken0Price
      let priceLower := currentPrice * (1 - rangePercent / 2)
      let priceUpper := currentPrice * (1 + rangePercent / 2)
      let rawTickLower := getTickFromPrice d0 d1 priceLower
      let rawTickUpper := getTickFromPrice d0 d1 priceUpper
      let tickLower : ℝ :=
        min (↑⌊(rawTickLower : ℝ) / tickSpacing⌋ * tickSpacing)
          (↑⌊(rawTickUpper : ℝ) / tickSpacing⌋ * tickSpacing)
      let tickUpper : ℝ :=
        max (↑⌈(rawTickLower : ℝ) / tickSpacing⌉ * tickSpacing)
          (↑⌈(rawTickUpper : ℝ) / tickSpacing⌉ * tickSpacing)
      { tickLower := tickLower, tickUpper := tickUpper,
        rangeWidth := rangePercent, priceLower := priceLower,
        priceUpper := priceUpper }

/-- `tokensForStrategy` (lines 214–243): the three-region concentrated
liquidity token allocation.  Returns `(amount0, amount1)`. -/
noncomputable def tokensForStrategy (minRange maxRange investment price : ℝ)
    (decimal : ℤ) : ℝ × ℝ :=
  let sqrtPrice := Real.sqrt (price * (10 : ℝ) ^ decimal)
  let sqrtLow := Real.sqrt (minRange * (10 : ℝ) ^ decimal)
  let sqrtHigh := Real.sqrt (maxRange * (10 : ℝ) ^ decimal)
  if sqrtLow < sqrtPrice ∧ sqrtPrice < sqrtHigh then
    let delta := investment /
      (sqrtPrice - sqrtLow +
        (1 / sqrtPrice - 1 / sqrtHigh) * (price * (10 : ℝ) ^ decimal))
    (delta * (1 / sqrtPrice - 1 / sqrtHigh) * (10 : ℝ) ^ decimal,
      delta * (sqrtPrice - sqrtLow))
  else if sqrtPrice < sqrtLow then
    let delta := investment / ((1 / sqrtLow - 1 / sqrtHigh) * price)
    (delta * (1 / sqrtLow - 1 / sqrtHigh), 0)
  else
    let delta := investment / (sqrtHigh - sqrtLow)
    (0, delta * (sqrtHigh - sqrtLow))

/-- `liquidityForStrategy` (lines 249–289): liquidity units in the Q96
square-root-price representation, split over the same three regions. -/
noncomputable def liquidityForStrategy (d0 d1 : ℤ)
    (price low high tokens0 tokens1 : ℝ) : ℝ :=
  let decimal := d0 - d1
  let lh0 := Real.sqrt (low * (10 : ℝ) ^ decimal) * 2 ^ (96 : ℕ)
  let lh1 := Real.sqrt (high * (10 : ℝ) ^ decimal) * 2 ^ (96 : ℕ)
  let sPrice := Real.sqrt (price * (10 : ℝ) ^ decimal) * 2 ^ (96 : ℕ)
  let sLow := min lh0 lh1
  let sHigh := max lh0 lh1
  if sPrice ≤ sLow then
    tokens0 / (2 ^ (96 : ℕ) * (sHigh - sLow) / sHigh / sLow / (10 : ℝ) ^ d0)
  else if sPrice ≤ sHigh ∧ sLow < sPrice then
    let liq0 := tokens0 /
      (2 ^ (96 : ℕ) * (sHigh - sPrice) / sHigh / sPrice / (10 : ℝ) ^ d1)
    let liq1 := tokens1 / ((sPrice - sLow) / 2 ^ (96 : ℕ) / (10 : ℝ) ^ d1)
    min liq1 liq0
  else
    tokens1 / ((sHigh - sLow) / 2 ^ (96 : ℕ) / (10 : ℝ) ^ d0)

/-- `calculateTokensAndLiquidity` (lines 172–208): sets `usdcAmount`,
`btcAmount`, `liquidityAmount` and `lpSharePercentage`. -/
noncomputable def calculateTokensAndLiquidity (s : PositionState)
    (investment price : ℝ) : PositionState :=
  let s' :=
    if s.positionType = PositionType.fullRange then
      let usdInToken1 := investment / 2
      let usdInToken0 := investment / 2
      let usdcAmount := usdInToken0
      let btcAmount := usdInToken1 / price
      let veryLowPrice := price * 0.01
      let veryHighPrice := price * 100
      let liquidityAmount := liquidityForStrategy s.token0Decimals
        s.token1Decimals price veryLowPrice veryHighPrice btcAmount usdcAmount
      { s with usdcAmount := usdcAmount, btcAmount := btcAmount,
               liquidityAmount := liquidityAmount }
    else
      let decimal := s.token0Decimals - s.token1Decimals
      let amounts := tokensForStrategy s.positionRange.priceLower
        s.positionRange.priceUpper investment price decimal
      let btcAmount := amounts.1
      let usdcAmount := amounts.2
      let liquidityAmount := liquidityForStrategy s.token0Decimals
        s.token1Decimals price s.positionRange.priceLower
        s.positionRange.priceUpper btcAmount usdcAmount
      { s with usdcAmount := usdcAmount, btcAmount := btcAmount,
               liquidityAmount := liquidityAmount }
  { s' with lpSharePercentage := s'.liquidityAmount / s'.totalPoolLiquidity }

/-- The constructor of `LiquidUnitPosition` (lines 64–112). -/
noncomputable def mkLiquidUnitPosition (initialAmount : ℝ)
    (positionType : PositionType) (initialTick : ℤ)
    (initialTvl initialToken0Price initialToken1Price totalPoolLiquidity : ℝ)
    (token0Symbol token1Symbol : String) (granularityType : Granularity)
    (tickSpacing : ℝ) (token0Decimals token1Decimals : ℤ)
    (useCompoundingAPR : Bool) : PositionState :=
  let currentBtcPrice :=
    if includesBTC token0Symbol then initialToken0Price
    else if includesBTC token1Symbol then initialToken1Price
    else initialToken0Price
  let positionRange := getPositionTickRange token0Decimals token1Decimals
    initialToken0Price initialTick positionType tickSpacing
  let s0 : PositionState :=
    { initialAmount := initialAmount,
      currentPositionCapital := initialAmount,
      positionType := positionType,
      positionRange := positionRange,
      lpSharePercentage := 0,
      tickSpacing := tickSpacing,
      cumulativeFees := 0,
      dataPointsInRange := 0,
      totalDataPoints := 0,
      rebalanceCount := 0,
      totalGasCosts := 0,
      lastRebalanceDataPoint := 0,
      currentWasRebalanced := false,
      currentPositionDataPoints := 0,
      currentPositionFees := 0,
      currentTimestamp := 0,
      positionResults := [],
      currentToken0Price := initialToken0Price,
      currentToken1Price := initialToken1Price,
      initialToken0Price := initialToken0Price,
      initialToken1Price := initialToken1Price,
      currentBtcPrice := currentBtcPrice,
      totalPoolLiquidity := totalPoolLiquidity,
      poolTVL := initialTvl,
      token0Decimals := token0Decimals,
      token1Decimals := token1Decimals,
      token0Symbol := token0Symbol,
      token1Symbol := token1Symbol,
      currentTick := initialTick,
      usdcAmount := 0,
      btcAmount := 0,
      liquidityAmount := 0,
      maxPortfolioValue := 0,
      minPortfolioValue := numberMaxValue,
      granularityType := granularityType,
      useCompoundingAPR := useCompoundingAPR,
      assetComposition := token0Symbol ++ "," ++ token1Symbol,
      previousFeeGrowth0X128 := 0,
      previousFeeGrowth1X128 := 0 }
  calculateTokensAndLiquidity s0 initialAmount initialToken0Price

/-- `isPositionActive` (lines 426–431): `tick` between the (inclusive) range
bounds. -/
def isPositionActive (s : PositionState) (currentTick : ℤ) : Prop :=
  s.positionRange.tickLower ≤ (currentTick : ℝ) ∧
    (currentTick : ℝ) ≤ s.positionRange.tickUpper

/-- `isOutOfRange` (lines 418–420). -/
def isOutOfRange (s : PositionState) (currentTick : ℤ) : Prop :=
  ¬ isPositionActive s currentTick

/-- `getCurrentPositionValue` (lines 436–441). -/
noncomputable def getCurrentPositionValue (s : PositionState) : ℝ :=
  s.usdcAmount + s.btcAmount * s.currentBtcPrice

/-- `calculateActiveLiquidityForCandle` (lines 348–370).  The source guard
`!isFinite(low) || !isFinite(high) || low <= 0 || high <= 0` degenerates to
the non-positivity test over `ℝ` (every real is finite); the final JS
expression `isNaN(ratio) || !ratio ? 0 : ratio` reduces to a test against
zero. -/
noncomputable def calculateActiveLiquidityForCandle (s : PositionState)
    (dataPoint : DataPoint) : ℝ :=
  if s.positionType = PositionType.fullRange then 100
  else
    let low := dataPoint.low
    let high := dataPoint.high
    if low ≤ 0 ∨ high ≤ 0 then 0
    else
      let lowTick := getTickFromPrice s.token0Decimals s.token1Decimals low
      let highTick := getTickFromPrice s.token0Decimals s.token1Decimals high
      let minTick := s.positionRange.tickLower
      let maxTick := s.positionRange.tickUpper
      let divider : ℝ :=
        if (highTick : ℝ) - (lowTick : ℝ) ≠ 0 then (highTick : ℝ) - (lowTick : ℝ) else 1
      let ratioTrue : ℝ :=
        if (highTick : ℝ) - (lowTick : ℝ) ≠ 0 then
          (min maxTick (highTick : ℝ) - max minTick (lowTick : ℝ)) / divider
        else 1
      let ratioVal : ℝ :=
        if minTick < (highTick : ℝ) ∧ (lowTick : ℝ) < maxTick then
          ratioTrue * 100
        else 0
      if ratioVal = 0 then 0 else ratioVal

/-- `calculateFeesUsingSimplifiedMethod` (lines 376–412).  The source both
returns the USD fee amount and mutates `previousFeeGrowth{0,1}X128`; the model
returns the updated state together with the fee. -/
noncomputable def calculateFeesUsingSimplifiedMethod (s : PositionState)
    (dataPoint : DataPoint) (activeLiquidityPercent : ℝ) :
    PositionState × ℝ :=
  let currentFeeGrowth0 := dataPoint.feeGrowthGlobal0X128
  let currentFeeGrowth1 := dataPoint.feeGrowthGlobal1X128
  if s.totalDataPoints = 1 then
    ({ s with previousFeeGrowth0X128 := currentFeeGrowth0,
              previousFeeGrowth1X128 := currentFeeGrowth1 }, 0)
  else
    let fg0 := ((currentFeeGrowth0 - s.previousFeeGrowth0X128 : ℤ) : ℝ) /
      2 ^ (128 : ℕ) / (10 : ℝ) ^ s.token0Decimals
    let fg1 := ((currentFeeGrowth1 - s.previousFeeGrowth1X128 : ℤ) : ℝ) /
      2 ^ (128 : ℕ) / (10 : ℝ) ^ s.token1Decimals
    let baseFeeToken0 := fg0 * s.liquidityAmount * activeLiquidityPercent / 100
    let baseFeeToken1 := fg1 * s.liquidityAmount * activeLiquidityPercent / 100
    let feesUSD := baseFeeToken0 + baseFeeToken1 * s.currentToken0Price
    ({ s with previousFeeGrowth0X128 := currentFeeGrowth0,
              previousFeeGrowth1X128 := currentFeeGrowth1 }, feesUSD)

/-- `update` (lines 295–342): process one snapshot; returns the new state and
the fee income for the step (`dataPointFees`).  The `try/catch` of the source
cannot raise in the model (its only throwing operation is `BigInt(...)`
string parsing, which the `DataPoint` structure performs up front). -/
noncomputable def update (s : PositionState) (dataPoint : DataPoint)
    (wasRebalanced : Bool) : PositionState × ℝ :=
  let s1 := { s with
    totalDataPoints := s.totalDataPoints + 1,
    currentPositionDataPoints := s.currentPositionDataPoints + 1,
    currentWasRebalanced := wasRebalanced,
    currentTick := dataPoint.tick,
    currentToken0Price := dataPoint.token0Price,
    currentToken1Price := dataPoint.token1Price }
  let s2 := { s1 with currentBtcPrice :=
    (if includesBTC s1.token0Symbol then s1.currentToken0Price
     else if includesBTC s1.token1Symbol then s1.currentToken1Price
     else s1.currentToken0Price) }
  let s3 := { s2 with currentTimestamp :=
    (if s2.granularityType = Granularity.daily then dataPoint.date
     else dataPoint.periodStartUnix * 1000) }
  let isInRange := ¬ isOutOfRange s3 s3.currentTick ∧ wasRebalanced = false
  let activeLiquidityPercent := calculateActiveLiquidityForCandle s3 dataPoint
  let step :=
    if isInRange then
      calculateFeesUsingSimplifiedMethod
        { s3 with dataPointsInRange := s3.dataPointsInRange + 1 }
        dataPoint activeLiquidityPercent
    else (s3, 0)
  let s4 := step.1
  let dataPointFees := step.2
  let s5 := { s4 with
    cumulativeFees := s4.cumulativeFees + dataPointFees,
    currentPositionFees := s4.currentPositionFees + dataPointFees }
  let currentPositionValue := getCurrentPositionValue s5
  let totalValue := currentPositionValue + s5.cumulativeFees
  let s6 := { s5 with maxPortfolioValue := max s5.maxPortfolioValue totalValue }
  let s7 :=
    @ite _ (s6.maxPortfolioValue > s6.initialAmount)
      (Classical.propDecidable _)
      { s6 with minPortfolioValue := min s6.minPortfolioValue totalValue }
      s6
  (s7, dataPointFees)

/-- `rebalance` (lines 458–490).  The `currentTvl` parameter is kept although
the source never reads it. -/
noncomputable def rebalance (s : PositionState) (currentTick : ℤ)
    (currentTvl gasCost : ℝ) (isClosing : Bool) : PositionState :=
  let s1 :=
    if 0 < s.currentPositionDataPoints then
      { s with positionResults :=
          (s.positionResults ++
            [{ duration := s.currentPositionDataPoints,
               fees := s.currentPositionFees,
               gasCost := gasCost,
               startingCapital := s.currentPositionCapital }]) }
    else s
  let s2 := { s1 with
    currentPositionCapital := s1.currentPositionCapital + s1.currentPositionFees }
  let s3 :=
    if isClosing = false then
      let s3a := { s2 with initialToken0Price := s2.currentToken0Price }
      let s3b := { s3a with positionRange :=
        (getPositionTickRange s3a.token0Decimals s3a.token1Decimals
          s3a.currentToken0Price currentTick s3a.positionType
          s3a.tickSpacing) }
      let s3c := calculateTokensAndLiquidity s3b s3b.currentPositionCapital
        s3b.currentToken0Price
      { s3c with totalGasCosts := s3c.totalGasCosts + gasCost,
                 rebalanceCount := s3c.rebalanceCount + 1,
                 lastRebalanceDataPoint := s3c.totalDataPoints }
    else s2
  { s3 with currentPositionDataPoints := 0, currentPositionFees := 0 }

/-- `getRunningAPR` (lines 507–519). -/
noncomputable def getRunningAPR (s : PositionState) : ℝ :=
  if s.totalDataPoints = 0 then 0
  else
    let netFees := s.cumulativeFees - s.totalGasCosts
    if s.granularityType = Granularity.daily then
      netFees / s.initialAmount * (365 / (s.totalDataPoints : ℝ)) * 100
    else
      netFees / s.initialAmount * (8760 / (s.totalDataPoints : ℝ)) * 100

/-- The annualized net return of one sub-position record, as computed inside
the loop of `getWeightedPositionAPR` (lines 543–559). -/
noncomputable def subPositionNetAPR (g : Granularity) (p : SubPosition) : ℝ :=
  let netFees := p.fees - p.gasCost
  if g = Granularity.daily then
    netFees / p.startingCapital * (365 / (p.duration : ℝ)) * 100
  else
    netFees / p.startingCapital * (8760 / (p.duration : ℝ)) * 100

/-- `getWeightedPositionAPR` (lines 524–562): duration-weighted average of the
annualized net return of every sub-position, the still-open one included. -/
noncomputable def getWeightedPositionAPR (s : PositionState) : ℝ :=
  let allPositions := s.positionResults ++
    (if 0 < s.currentPositionDataPoints then
      [{ duration := s.currentPositionDataPoints,
         fees := s.currentPositionFees,
         gasCost := 0,
         startingCapital := s.currentPositionCapital - s.currentPositionFees }]
     else [])
  if allPositions = [] then 0
  else
    let acc := allPositions.foldl
      (fun acc p =>
        (acc.1 + subPositionNetAPR s.granularityType p * (p.duration : ℝ),
         acc.2 + p.duration))
      ((0 : ℝ), (0 : ℕ))
    if 0 < acc.2 then acc.1 / (acc.2 : ℝ) else 0

/-- Getter `netFeesEarned` (lines 596–598). -/
noncomputable def netFeesEarned (s : PositionState) : ℝ :=
  s.cumulativeFees - s.totalGasCosts

/-! ### Concrete sample values used by witnesses and counterexamples -/

/-- A concrete position state: a `'100%'` range position, tick range
`[0, 10]`, one data point accrued in the current sub-position. -/
noncomputable def sampleState : PositionState :=
  { initialAmount := 1000,
    currentPositionCapital := 1000,
    positionType := PositionType.percent 100,
    positionRange := { tickLower := 0, tickUpper := 10, rangeWidth := 1,
                       priceLower := 1, priceUpper := 3 },
    lpSharePercentage := 0,
    tickSpacing := 60,
    cumulativeFees := 0,
    dataPointsInRange := 1,
    totalDataPoints := 3,
    rebalanceCount := 0,
    totalGasCosts := 0,
    lastRebalanceDataPoint := 0,
    currentWasRebalanced := false,
    currentPositionDataPoints := 1,
    currentPositionFees := 0,
    currentTimestamp := 0,
    positionResults := [],
    currentToken0Price := 2,
    currentToken1Price := 1,
    initialToken0Price := 2,
    initialToken1Price := 1,
    currentBtcPrice := 2,
    totalPoolLiquidity := 1000000,
    poolTVL := 0,
    token0Decimals := 0,
    token1Decimals := 0,
    token0Symbol := "cbBTC",
    token1Symbol := "USDC",
    currentTick := 5,
    usdcAmount := 500,
    btcAmount := 250,
    liquidityAmount := 100,
    maxPortfolioValue := 0,
    minPortfolioValue := 0,
    granularityType := Granularity.daily,
    useCompoundingAPR := true,
    assetComposition := "cbBTC,USDC",
    previousFeeGrowth0X128 := 0,
    previousFeeGrowth1X128 := 0 }

/-- A concrete snapshot whose tick `999` lies above `sampleState`'s tick range
`[0, 10]` and whose fee-growth accumulators are nonzero. -/
def sampleDataPoint : DataPoint :=
  { date := 1, periodStartUnix := 1, tick := 999, token0Price := 2,
    token1Price := 1, low := 1, high := 2, feeGrowthGlobal0X128 := 5,
    feeGrowthGlobal1X128 := 7 }

/-- A reachable zero-rebalance state: initial capital `200`, one daily data
point with `100` of fee income, no rebalance, no gas.  (`update` never touches
`currentPositionCapital`, so with zero rebalances it still equals
`initialAmount`.) -/
noncomputable def c2State : PositionState :=
  { sampleState with
    initialAmount := 200,
    currentPositionCapital := 200,
    cumulativeFees := 100,
    currentPositionFees := 100,
    currentPositionDataPoints := 1,
    totalDataPoints := 1,
    dataPointsInRange := 1 }

/-- The ratio tail of `calculateActiveLiquidityForCandle` (lines 363–368 of
the source), as a function of the candle ticks `tl`, `th` and the position's
range bounds `mn`, `mx`. -/
noncomputable def candleRatio (tl th mn mx : ℝ) : ℝ :=
  let divider := if th - tl ≠ 0 then th - tl else 1
  let ratioTrue := if th - tl ≠ 0 then (min mx th - max mn tl) / divider else 1
  if mn < th ∧ tl < mx then ratioTrue * 100 else 0

/-- The allocation pipeline of `calculateTokensAndLiquidity` for a ranged
position (lines 190–206): `tokensForStrategy` followed by
`liquidityForStrategy` on the resulting amounts, with the same decimal
convention `decimal = token0Decimals - token1Decimals` in both steps. -/
noncomputable def allocationPipeline (d0 d1 : ℤ)
    (minRange maxRange price investment : ℝ) : ℝ :=
  let amounts := tokensForStrategy minRange maxRange investment price (d0 - d1)
  liquidityForStrategy d0 d1 price minRange maxRange amounts.1 amounts.2

/-! ### C10 -/

/-- C10: `isOutOfRange` is inclusive at both boundaries: it returns false when
the tick equals `tickLower` or `tickUpper` exactly, and it holds iff
`tick < tickLower` or `tick > tickUpper`. -/
theorem c10_isOutOfRange_inclusive (s : PositionState) (tick : ℤ)
    (h : s.positionRange.tickLower ≤ s.positionRange.tickUpper) :
    (((tick : ℝ) = s.positionRange.tickLower ∨
      (tick : ℝ) = s.positionRange.tickUpper) → ¬ isOutOfRange s tick) ∧
    (isOutOfRange s tick ↔
      ((tick : ℝ) < s.positionRange.tickLower ∨
        s.positionRange.tickUpper < (tick : ℝ))) := by
  unfold isOutOfRange isPositionActive
  constructor
  · rintro (he | he) hn
    · exact hn ⟨by linarith, by linarith⟩
    · exact hn ⟨by linarith, by linarith⟩
  · rw [not_and_or, not_le, not_le]

/-- Witness for C10 at `sampleState` (tick range `[0, 10]`) and tick `0`. -/
theorem c10_witness :
    ((((0 : ℤ) : ℝ) = sampleState.positionRange.tickLower ∨
      ((0 : ℤ) : ℝ) = sampleState.positionRange.tickUpper) →
      ¬ isOutOfRange sampleState 0) ∧
    (isOutOfRange sampleState 0 ↔
      (((0 : ℤ) : ℝ) < sampleState.positionRange.tickLower ∨
        sampleState.positionRange.tickUpper < ((0 : ℤ) : ℝ))) :=
  c10_isOutOfRange_inclusive sampleState 0 (by norm_num [sampleState])

/-! ### C9 -/

/-- C9: a closing rebalance records the gas cost only inside the appended
sub-position record; it neither adds it to `totalGasCosts` nor increments
`rebalanceCount`, so `netFeesEarned` still equals the pre-close
`cumulativeFees − totalGasCosts`. -/
theorem c9_closing_gas_excluded (s : PositionState) (tick : ℤ)
    (tvl gas : ℝ) :
    (rebalance s tick tvl gas true).totalGasCosts = s.totalGasCosts ∧
    (rebalance s tick tvl gas true).rebalanceCount = s.rebalanceCount ∧
    (rebalance s tick tvl gas true).positionResults =
      s.positionResults ++
        (if 0 < s.currentPositionDataPoints then
          [{ duration := s.currentPositionDataPoints,
             fees := s.currentPositionFees, gasCost := gas,
             startingCapital := s.currentPositionCapital }]
         else []) ∧
    netFeesEarned (rebalance s tick tvl gas true) =
      s.cumulativeFees - s.totalGasCosts := by
  unfold rebalance netFeesEarned
  by_cases h : 0 < s.currentPositionDataPoints <;> simp [h]

/-! ### C6 -/

/-- Counterexample for C6: on a state whose current sub-position has zero data
points (`currentPositionDataPoints = 0`, e.g. a closing call issued twice in a
row), `rebalance(..., isClosing := true)` appends no record at all, so it does
not append exactly one record. -/
theorem c6_counterexample :
    ¬ ((rebalance { sampleState with currentPositionDataPoints := 0 }
          0 0 5 true).positionResults.length =
        ({ sampleState with
            currentPositionDataPoints := 0 } : PositionState).positionResults.length
          + 1) := by
  simp [rebalance, sampleState]

/-- C6 (amended): a closing rebalance appends exactly one sub-position record
when the current sub-position has at least one data point and none otherwise,
performs no new allocation, and leaves the token balances, position range and
liquidity amount unchanged. -/
theorem c6_closing_rebalance_frame (s : PositionState) (tick : ℤ)
    (tvl gas : ℝ) :
    (rebalance s tick tvl gas true).positionResults.length =
      s.positionResults.length +
        (if 0 < s.currentPositionDataPoints then 1 else 0) ∧
    (rebalance s tick tvl gas true).usdcAmount = s.usdcAmount ∧
    (rebalance s tick tvl gas true).btcAmount = s.btcAmount ∧
    (rebalance s tick tvl gas true).positionRange = s.positionRange ∧
    (rebalance s tick tvl gas true).liquidityAmount = s.liquidityAmount := by
  unfold rebalance
  by_cases h : 0 < s.currentPositionDataPoints <;> simp [h]

/-! ### C1 -/

/-- Helper: whenever the in-range test of `update` fails (tick out of range or
the rebalance flag set), the step returns zero fees and leaves the previous
fee-growth accumulators untouched. -/
theorem update_skip_fees (s : PositionState) (dp : DataPoint) (w : Bool)
    (h : ¬ (isPositionActive s dp.tick ∧ w = false)) :
    (update s dp w).2 = 0 ∧
    (update s dp w).1.previousFeeGrowth0X128 = s.previousFeeGrowth0X128 ∧
    (update s dp w).1.previousFeeGrowth1X128 = s.previousFeeGrowth1X128 := by
  by_cases hA : isPositionActive s dp.tick
  · have hw : w = true := by
      cases w
      · exact absurd ⟨hA, rfl⟩ h
      · rfl
    simp [update, isOutOfRange, isPositionActive, hw,
      apply_ite PositionState.previousFeeGrowth0X128,
      apply_ite PositionState.previousFeeGrowth1X128]
  · simp only [isOutOfRange, isPositionActive] at hA
    simp [update, isOutOfRange, isPositionActive, hA,
      apply_ite PositionState.previousFeeGrowth0X128,
      apply_ite PositionState.previousFeeGrowth1X128]

/-- Counterexample for C1: `sampleDataPoint.tick = 999` is out of
`sampleState`'s tick range `[0, 10]`, yet after `update` the stored previous
fee-growth accumulator is still `0`, not the data point's accumulator value
`5`: the skipped fee computation never touches the baseline. -/
theorem c1_counterexample :
    isOutOfRange sampleState sampleDataPoint.tick ∧
    ¬ ((update sampleState sampleDataPoint false).1.previousFeeGrowth0X128 =
        sampleDataPoint.feeGrowthGlobal0X128) := by
  constructor
  · norm_num [isOutOfRange, isPositionActive, sampleState, sampleDataPoint]
  · norm_num [update, isOutOfRange, isPositionActive, sampleState,
      sampleDataPoint, apply_ite PositionState.previousFeeGrowth0X128]

/-- C1 (amended): for a data point whose tick is out of range or that is
flagged as a rebalance boundary, `update` returns zero fee income and cannot
raise, but the previous fee-growth accumulators are left unchanged (they are
not advanced to the data point's values: the fee computation, which is what
advances them, is skipped entirely). -/
theorem c1_skip_preserves_baseline (s : PositionState) (dp : DataPoint)
    (wasRebalanced : Bool)
    (h : isOutOfRange s dp.tick ∨ wasRebalanced = true) :
    (update s dp wasRebalanced).2 = 0 ∧
    (update s dp wasRebalanced).1.previousFeeGrowth0X128 =
      s.previousFeeGrowth0X128 ∧
    (update s dp wasRebalanced).1.previousFeeGrowth1X128 =
      s.previousFeeGrowth1X128 := by
  refine update_skip_fees s dp wasRebalanced ?_
  rcases h with h | h
  · exact fun hc => h hc.1
  · intro hc
    rw [h] at hc
    exact Bool.noConfusion hc.2

/-- Witness for C1's amended theorem at `sampleState` and the out-of-range
`sampleDataPoint`. -/
theorem c1_witness :
    (update sampleState sampleDataPoint false).2 = 0 ∧
    (update sampleState sampleDataPoint false).1.previousFeeGrowth0X128 =
      sampleState.previousFeeGrowth0X128 ∧
    (update sampleState sampleDataPoint false).1.previousFeeGrowth1X128 =
      sampleState.previousFeeGrowth1X128 :=
  c1_skip_preserves_baseline sampleState sampleDataPoint false
    (Or.inl (by norm_num [isOutOfRange, isPositionActive, sampleState,
      sampleDataPoint]))

/-! ### C5 -/

/-- Helper: on a state that has seen no data point yet, `update` returns zero
fees, and seeds the previous fee-growth accumulators from the snapshot
whenever the fee computation runs (tick in range, no rebalance flag). -/
theorem update_first_point (s : PositionState) (dp : DataPoint) (w : Bool)
    (h0 : s.totalDataPoints = 0) :
    (update s dp w).2 = 0 ∧
    (¬ isOutOfRange s dp.tick → w = false →
      (update s dp w).1.previousFeeGrowth0X128 = dp.feeGrowthGlobal0X128 ∧
      (update s dp w).1.previousFeeGrowth1X128 = dp.feeGrowthGlobal1X128) := by
  by_cases hin : isPositionActive s dp.tick ∧ w = false
  · obtain ⟨hin1, hw⟩ := hin
    have hseed :
        (update s dp w).2 = 0 ∧
        (update s dp w).1.previousFeeGrowth0X128 = dp.feeGrowthGlobal0X128 ∧
        (update s dp w).1.previousFeeGrowth1X128 = dp.feeGrowthGlobal1X128 := by
      simp [update, isOutOfRange, isPositionActive, hin1.1, hin1.2, hw, h0,
        calculateFeesUsingSimplifiedMethod,
        apply_ite PositionState.previousFeeGrowth0X128,
        apply_ite PositionState.previousFeeGrowth1X128]
    exact ⟨hseed.1, fun _ _ => hseed.2⟩
  · refine ⟨(update_skip_fees s dp w hin).1, fun h1 h2 => ?_⟩
    exact absurd ⟨not_not.mp h1, h2⟩ hin

/-- Helper: the constructor starts with a zero data-point counter. -/
theorem mk_totalDataPoints (initialAmount : ℝ) (positionType : PositionType)
    (initialTick : ℤ) (initialTvl p0 p1 poolLiq : ℝ) (sym0 sym1 : String)
    (g : Granularity) (ts : ℝ) (d0 d1 : ℤ) (capr : Bool) :
    (mkLiquidUnitPosition initialAmount positionType initialTick initialTvl
      p0 p1 poolLiq sym0 sym1 g ts d0 d1 capr).totalDataPoints = 0 := by
  cases positionType <;>
    simp [mkLiquidUnitPosition, calculateTokensAndLiquidity]

/-- C5: the first `update` on a freshly constructed position returns fee
income exactly `0` whatever the snapshot's fee-growth accumulators hold, and,
when the fee computation runs (in range, not flagged rebalanced), seeds the
previous fee-growth accumulators from that first snapshot. -/
theorem c5_first_update_returns_zero (initialAmount : ℝ)
    (positionType : PositionType) (initialTick : ℤ)
    (initialTvl p0 p1 poolLiq : ℝ) (sym0 sym1 : String) (g : Granularity)
    (ts : ℝ) (d0 d1 : ℤ) (capr : Bool) (dp : DataPoint) (w : Bool) :
    (update (mkLiquidUnitPosition initialAmount positionType initialTick
      initialTvl p0 p1 poolLiq sym0 sym1 g ts d0 d1 capr) dp w).2 = 0 ∧
    (¬ isOutOfRange (mkLiquidUnitPosition initialAmount positionType
        initialTick initialTvl p0 p1 poolLiq sym0 sym1 g ts d0 d1 capr)
        dp.tick → w = false →
      (update (mkLiquidUnitPosition initialAmount positionType initialTick
        initialTvl p0 p1 poolLiq sym0 sym1 g ts d0 d1
        capr) dp w).1.previousFeeGrowth0X128 = dp.feeGrowthGlobal0X128 ∧
      (update (mkLiquidUnitPosition initialAmount positionType initialTick
        initialTvl p0 p1 poolLiq sym0 sym1 g ts d0 d1
        capr) dp w).1.previousFeeGrowth1X128 = dp.feeGrowthGlobal1X128) :=
  update_first_point _ dp w
    (mk_totalDataPoints initialAmount positionType initialTick initialTvl
      p0 p1 poolLiq sym0 sym1 g ts d0 d1 capr)

/-- Witness for C5 at a concrete full-range construction and snapshot. -/
theorem c5_witness :
    (update (mkLiquidUnitPosition 1000 PositionType.fullRange 0 0 2 1 1000
      "cbBTC" "USDC" Granularity.daily 60 0 0 true) sampleDataPoint
      false).2 = 0 ∧
    (¬ isOutOfRange (mkLiquidUnitPosition 1000 PositionType.fullRange 0 0 2 1
        1000 "cbBTC" "USDC" Granularity.daily 60 0 0 true)
        sampleDataPoint.tick → false = false →
      (update (mkLiquidUnitPosition 1000 PositionType.fullRange 0 0 2 1 1000
        "cbBTC" "USDC" Granularity.daily 60 0 0 true) sampleDataPoint
        false).1.previousFeeGrowth0X128 =
        sampleDataPoint.feeGrowthGlobal0X128 ∧
      (update (mkLiquidUnitPosition 1000 PositionType.fullRange 0 0 2 1 1000
        "cbBTC" "USDC" Granularity.daily 60 0 0 true) sampleDataPoint
        false).1.previousFeeGrowth1X128 =
        sampleDataPoint.feeGrowthGlobal1X128) :=
  c5_first_update_returns_zero 1000 PositionType.fullRange 0 0 2 1 1000
    "cbBTC" "USDC" Granularity.daily 60 0 0 true sampleDataPoint false

/-! ### C2 -/

/-- C2 evaluated at the failing input: on a zero-rebalance run
(`rebalanceCount = 0`, empty sub-position history, one data point) the
weighted APR uses `currentPositionCapital − currentPositionFees = 100` as the
open sub-position's starting capital instead of the capital at the start of
the run (`initialAmount = 200`), so it returns `36500` while the running APR
returns `18250`. -/
theorem c2_weighted_vs_running_divergence :
    c2State.rebalanceCount = 0 ∧ c2State.positionResults = [] ∧
    0 < c2State.totalDataPoints ∧
    getWeightedPositionAPR c2State = 36500 ∧
    getRunningAPR c2State = 18250 ∧
    getWeightedPositionAPR c2State ≠ getRunningAPR c2State := by
  refine ⟨rfl, rfl, by norm_num [c2State, sampleState], ?_, ?_, ?_⟩ <;>
    norm_num [getWeightedPositionAPR, getRunningAPR, subPositionNetAPR,
      c2State, sampleState]

/-! ### C4 -/

/-- `calculateActiveLiquidityForCandle` in terms of `candleRatio`. -/
theorem calculateActiveLiquidityForCandle_eq (s : PositionState)
    (dp : DataPoint) :
    calculateActiveLiquidityForCandle s dp =
      if s.positionType = PositionType.fullRange then 100
      else if dp.low ≤ 0 ∨ dp.high ≤ 0 then 0
      else
        if candleRatio
            ((getTickFromPrice s.token0Decimals s.token1Decimals dp.low : ℤ) : ℝ)
            ((getTickFromPrice s.token0Decimals s.token1Decimals dp.high : ℤ) : ℝ)
            s.positionRange.tickLower s.positionRange.tickUpper = 0 then 0
        else
          candleRatio
            ((getTickFromPrice s.token0Decimals s.token1Decimals dp.low : ℤ) : ℝ)
            ((getTickFromPrice s.token0Decimals s.token1Decimals dp.high : ℤ) : ℝ)
            s.positionRange.tickLower s.positionRange.tickUpper := rfl

/-- `(if x = 0 then 0 else x) = x`, the shape of the source's final
`isNaN(ratio) || !ratio ? 0 : ratio`. -/
theorem ite_zero_id (x : ℝ) : (if x = 0 then 0 else x) = x := by
  by_cases h : x = 0 <;> simp [h]

/-- Core bounds of the candle ratio: with an ordered position range it lies in
`[0, 100]`, and it is `0` whenever the candle tick interval and the position
range are disjoint. -/
theorem candleRatio_core (tl th mn mx : ℝ) (hmn : mn ≤ mx) :
    0 ≤ candleRatio tl th mn mx ∧ candleRatio tl th mn mx ≤ 100 ∧
      ((max tl th < mn ∨ mx < min tl th) → candleRatio tl th mn mx = 0) := by
  simp only [candleRatio]
  by_cases hc : mn < th ∧ tl < mx
  · obtain ⟨h1, h2⟩ := hc
    have hdis : ¬ (max tl th < mn ∨ mx < min tl th) := by
      rintro (h | h)
      · have := le_max_right tl th
        linarith
      · have := min_le_left tl th
        linarith
    by_cases hD : th - tl ≠ 0
    · rcases lt_trichotomy tl th with hlt | heq | hgt
      · rw [if_pos (⟨h1, h2⟩ : mn < th ∧ tl < mx), if_pos hD, if_pos hD]
        have hD0 : (0 : ℝ) < th - tl := by linarith
        have hmm1 : max mn tl ≤ min mx th :=
          le_min (max_le hmn h2.le) (max_le h1.le hlt.le)
        have hnum1 : min mx th - max mn tl ≤ th - tl := by
          have i1 := min_le_right mx th
          have i2 := le_max_right mn tl
          linarith
        refine ⟨mul_nonneg (div_nonneg (by linarith) hD0.le) (by norm_num),
          ?_, fun h => absurd h hdis⟩
        have hle1 : (min mx th - max mn tl) / (th - tl) ≤ 1 :=
          (div_le_one hD0).mpr hnum1
        linarith
      · exact absurd (sub_eq_zero_of_eq heq.symm) hD
      · have e1 : min mx th = th := min_eq_right (by linarith)
        have e2 : max mn tl = tl := max_eq_right (by linarith)
        rw [if_pos (⟨h1, h2⟩ : mn < th ∧ tl < mx), if_pos hD, if_pos hD, e1,
          e2, div_self hD]
        exact ⟨by norm_num, by norm_num, fun h => absurd h hdis⟩
    · rw [if_pos (⟨h1, h2⟩ : mn < th ∧ tl < mx), if_neg hD]
      exact ⟨by norm_num, by norm_num, fun h => absurd h hdis⟩
  · rw [if_neg hc]
    exact ⟨le_refl 0, by norm_num, fun _ => rfl⟩

/-- C4: the active-liquidity fraction is `100` for a full-range position
regardless of inputs; for a ranged position it is `0` on non-positive low/high
inputs or when the candle's tick interval does not meet the position's tick
range; and it always lies in `[0, 100]`. -/
theorem c4_active_liquidity_fraction (s : PositionState) (dp : DataPoint)
    (hr : s.positionRange.tickLower ≤ s.positionRange.tickUpper) :
    (s.positionType = PositionType.fullRange →
      calculateActiveLiquidityForCandle s dp = 100) ∧
    (s.positionType ≠ PositionType.fullRange →
      (dp.low ≤ 0 ∨ dp.high ≤ 0 ∨
        max ((getTickFromPrice s.token0Decimals s.token1Decimals dp.low : ℤ) : ℝ)
          ((getTickFromPrice s.token0Decimals s.token1Decimals dp.high : ℤ) : ℝ) <
          s.positionRange.tickLower ∨
        s.positionRange.tickUpper <
          min ((getTickFromPrice s.token0Decimals s.token1Decimals dp.low : ℤ) : ℝ)
            ((getTickFromPrice s.token0Decimals s.token1Decimals dp.high : ℤ) : ℝ)) →
      calculateActiveLiquidityForCandle s dp = 0) ∧
    0 ≤ calculateActiveLiquidityForCandle s dp ∧
    calculateActiveLiquidityForCandle s dp ≤ 100 := by
  rw [calculateActiveLiquidityForCandle_eq]
  by_cases hft : s.positionType = PositionType.fullRange
  · simp [hft]
  · rw [if_neg hft]
    by_cases hbad : dp.low ≤ 0 ∨ dp.high ≤ 0
    · rw [if_pos hbad]
      exact ⟨fun h => absurd h hft, fun _ _ => rfl, le_refl 0, by norm_num⟩
    · rw [if_neg hbad, ite_zero_id]
      obtain ⟨hb1, hb2, hb3⟩ := candleRatio_core
        ((getTickFromPrice s.token0Decimals s.token1Decimals dp.low : ℤ) : ℝ)
        ((getTickFromPrice s.token0Decimals s.token1Decimals dp.high : ℤ) : ℝ)
        s.positionRange.tickLower s.positionRange.tickUpper hr
      refine ⟨fun h => absurd h hft, ?_, hb1, hb2⟩
      rintro _ (h | h | h | h)
      · exact absurd (Or.inl h) hbad
      · exact absurd (Or.inr h) hbad
      · exact hb3 (Or.inl h)
      · exact hb3 (Or.inr h)

/-- Witness for C4 at `sampleState` (ranged position, tick range `[0, 10]`)
and `sampleDataPoint`. -/
theorem c4_witness :
    (sampleState.positionType = PositionType.fullRange →
      calculateActiveLiquidityForCandle sampleState sampleDataPoint = 100) ∧
    (sampleState.positionType ≠ PositionType.fullRange →
      (sampleDataPoint.low ≤ 0 ∨ sampleDataPoint.high ≤ 0 ∨
        max ((getTickFromPrice sampleState.token0Decimals
            sampleState.token1Decimals sampleDataPoint.low : ℤ) : ℝ)
          ((getTickFromPrice sampleState.token0Decimals
            sampleState.token1Decimals sampleDataPoint.high : ℤ) : ℝ) <
          sampleState.positionRange.tickLower ∨
        sampleState.positionRange.tickUpper <
          min ((getTickFromPrice sampleState.token0Decimals
              sampleState.token1Decimals sampleDataPoint.low : ℤ) : ℝ)
            ((getTickFromPrice sampleState.token0Decimals
              sampleState.token1Decimals sampleDataPoint.high : ℤ) : ℝ)) →
      calculateActiveLiquidityForCandle sampleState sampleDataPoint = 0) ∧
    0 ≤ calculateActiveLiquidityForCandle sampleState sampleDataPoint ∧
    calculateActiveLiquidityForCandle sampleState sampleDataPoint ≤ 100 :=
  c4_active_liquidity_fraction sampleState sampleDataPoint
    (by norm_num [sampleState])

/-! ### C3 -/

/-- Counterexample for C3: with bounds `1 < 4`, investment `1` and
`price = 1 = priceLower` (so `price ≤ priceLower`), the allocation falls into
the final branch and returns a *nonzero* asset1 amount (`amount1 = 1`, the
whole investment), not `amount1 = 0`: at `price = priceLower` the code
allocates everything to asset1, not asset0. -/
theorem c3_counterexample :
    (0 : ℝ) < 1 ∧ (1 : ℝ) < 4 ∧ (1 : ℝ) ≤ 1 ∧
    (tokensForStrategy 1 4 1 1 0).2 ≠ 0 := by
  refine ⟨by norm_num, by norm_num, le_refl 1, ?_⟩
  have h4 : Real.sqrt (4 * (10 : ℝ) ^ (0 : ℤ)) = 2 := by
    rw [show (4 : ℝ) * (10 : ℝ) ^ (0 : ℤ) = 2 ^ 2 by norm_num]
    exact Real.sqrt_sq (by norm_num)
  have h1 : Real.sqrt (1 * (10 : ℝ) ^ (0 : ℤ)) = 1 := by
    rw [show (1 : ℝ) * (10 : ℝ) ^ (0 : ℤ) = 1 by norm_num]
    exact Real.sqrt_one
  simp only [tokensForStrategy, h4, h1]
  norm_num

/-- C3 (amended): for positive investment and bounds `0 < priceLower <
priceUpper`: strictly inside the range both amounts are positive; strictly
below the range `amount1 = 0`; at or above `priceUpper` `amount0 = 0`; and at
`price = priceLower` exactly the code behaves like the above-range branch,
returning `amount0 = 0` and `amount1 = investment`. -/
theorem c3_allocation_regions (minR maxR inv price : ℝ) (decimal : ℤ)
    (h1 : 0 < minR) (h2 : minR < maxR) (h3 : 0 < inv) :
    (minR < price → price < maxR →
      0 < (tokensForStrategy minR maxR inv price decimal).1 ∧
      0 < (tokensForStrategy minR maxR inv price decimal).2) ∧
    (price < minR → (tokensForStrategy minR maxR inv price decimal).2 = 0) ∧
    (maxR ≤ price → (tokensForStrategy minR maxR inv price decimal).1 = 0) ∧
    (price = minR → (tokensForStrategy minR maxR inv price decimal).1 = 0 ∧
      (tokensForStrategy minR maxR inv price decimal).2 = inv) := by
  have hE : (0 : ℝ) < (10 : ℝ) ^ decimal := zpow_pos (by norm_num) _
  have hLpos : 0 < Real.sqrt (minR * (10 : ℝ) ^ decimal) :=
    Real.sqrt_pos.mpr (mul_pos h1 hE)
  have hHpos : 0 < Real.sqrt (maxR * (10 : ℝ) ^ decimal) :=
    Real.sqrt_pos.mpr (mul_pos (h1.trans h2) hE)
  have hLH : Real.sqrt (minR * (10 : ℝ) ^ decimal) <
      Real.sqrt (maxR * (10 : ℝ) ^ decimal) :=
    Real.sqrt_lt_sqrt (mul_pos h1 hE).le (mul_lt_mul_of_pos_right h2 hE)
  refine ⟨?_, ?_, ?_, ?_⟩
  · intro hpl hpu
    have hp : 0 < price := h1.trans hpl
    have hPpos : 0 < Real.sqrt (price * (10 : ℝ) ^ decimal) :=
      Real.sqrt_pos.mpr (mul_pos hp hE)
    have c1 : Real.sqrt (minR * (10 : ℝ) ^ decimal) <
        Real.sqrt (price * (10 : ℝ) ^ decimal) :=
      Real.sqrt_lt_sqrt (mul_pos h1 hE).le (mul_lt_mul_of_pos_right hpl hE)
    have c2 : Real.sqrt (price * (10 : ℝ) ^ decimal) <
        Real.sqrt (maxR * (10 : ℝ) ^ decimal) :=
      Real.sqrt_lt_sqrt (mul_pos hp hE).le (mul_lt_mul_of_pos_right hpu hE)
    have hfrac : 1 / Real.sqrt (maxR * (10 : ℝ) ^ decimal) <
        1 / Real.sqrt (price * (10 : ℝ) ^ decimal) :=
      one_div_lt_one_div_of_lt hPpos c2
    have hD : 0 < Real.sqrt (price * (10 : ℝ) ^ decimal) -
        Real.sqrt (minR * (10 : ℝ) ^ decimal) +
        (1 / Real.sqrt (price * (10 : ℝ) ^ decimal) -
          1 / Real.sqrt (maxR * (10 : ℝ) ^ decimal)) *
          (price * (10 : ℝ) ^ decimal) := by
      have t2 : 0 < (1 / Real.sqrt (price * (10 : ℝ) ^ decimal) -
          1 / Real.sqrt (maxR * (10 : ℝ) ^ decimal)) *
          (price * (10 : ℝ) ^ decimal) :=
        mul_pos (by linarith) (mul_pos hp hE)
      linarith
    simp only [tokensForStrategy, if_pos (And.intro c1 c2)]
    exact ⟨mul_pos (mul_pos (div_pos h3 hD) (by linarith)) hE,
      mul_pos (div_pos h3 hD) (by linarith)⟩
  · intro hpl
    have hPL : Real.sqrt (price * (10 : ℝ) ^ decimal) <
        Real.sqrt (minR * (10 : ℝ) ^ decimal) := by
      rcases le_or_lt price 0 with hp | hp
      · have hz : Real.sqrt (price * (10 : ℝ) ^ decimal) = 0 :=
          Real.sqrt_eq_zero'.mpr (by nlinarith)
        rw [hz]
        exact hLpos
      · exact Real.sqrt_lt_sqrt (mul_pos hp hE).le
          (mul_lt_mul_of_pos_right hpl hE)
    have hc1 : ¬ (Real.sqrt (minR * (10 : ℝ) ^ decimal) <
        Real.sqrt (price * (10 : ℝ) ^ decimal) ∧
        Real.sqrt (price * (10 : ℝ) ^ decimal) <
          Real.sqrt (maxR * (10 : ℝ) ^ decimal)) :=
      fun hc => absurd (hc.1.trans hPL) (lt_irrefl _)
    simp only [tokensForStrategy, if_neg hc1, if_pos hPL]
  · intro hpu
    have hHP : Real.sqrt (maxR * (10 : ℝ) ^ decimal) ≤
        Real.sqrt (price * (10 : ℝ) ^ decimal) :=
      Real.sqrt_le_sqrt (mul_le_mul_of_nonneg_right hpu hE.le)
    have hc1 : ¬ (Real.sqrt (minR * (10 : ℝ) ^ decimal) <
        Real.sqrt (price * (10 : ℝ) ^ decimal) ∧
        Real.sqrt (price * (10 : ℝ) ^ decimal) <
          Real.sqrt (maxR * (10 : ℝ) ^ decimal)) :=
      fun hc => absurd hc.2 (not_lt.mpr hHP)
    have hc2 : ¬ (Real.sqrt (price * (10 : ℝ) ^ decimal) <
        Real.sqrt (minR * (10 : ℝ) ^ decimal)) :=
      not_lt.mpr (hLH.le.trans hHP)
    simp only [tokensForStrategy, if_neg hc1, if_neg hc2]
  · intro hpe
    subst hpe
    have hc1 : ¬ (Real.sqrt (price * (10 : ℝ) ^ decimal) <
        Real.sqrt (price * (10 : ℝ) ^ decimal) ∧
        Real.sqrt (price * (10 : ℝ) ^ decimal) <
          Real.sqrt (maxR * (10 : ℝ) ^ decimal)) :=
      fun hc => absurd hc.1 (lt_irrefl _)
    have hc2 : ¬ (Real.sqrt (price * (10 : ℝ) ^ decimal) <
        Real.sqrt (price * (10 : ℝ) ^ decimal)) := lt_irrefl _
    simp only [tokensForStrategy, if_neg hc1, if_neg hc2]
    refine ⟨trivial, ?_⟩
    have hne : Real.sqrt (maxR * (10 : ℝ) ^ decimal) -
        Real.sqrt (price * (10 : ℝ) ^ decimal) ≠ 0 :=
      sub_ne_zero.mpr hLH.ne'
    exact div_mul_cancel₀ inv hne

/-- Witness for C3's amended theorem at bounds `1 < 4`, investment `1`,
price `2` and decimal `0`. -/
theorem c3_witness :
    ((1 : ℝ) < 2 → (2 : ℝ) < 4 →
      0 < (tokensForStrategy 1 4 1 2 0).1 ∧
      0 < (tokensForStrategy 1 4 1 2 0).2) ∧
    ((2 : ℝ) < 1 → (tokensForStrategy 1 4 1 2 0).2 = 0) ∧
    ((4 : ℝ) ≤ 2 → (tokensForStrategy 1 4 1 2 0).1 = 0) ∧
    ((2 : ℝ) = 1 → (tokensForStrategy 1 4 1 2 0).1 = 0 ∧
      (tokensForStrategy 1 4 1 2 0).2 = 1) :=
  c3_allocation_regions 1 4 1 2 0 (by norm_num) (by norm_num) (by norm_num)

/-! ### C7 -/

/-- Helper: the token allocation is linear in the investment (the branch taken
does not depend on it, and the amounts scale with `delta`). -/
theorem tokensForStrategy_smul (minR maxR inv price : ℝ) (decimal : ℤ) :
    tokensForStrategy minR maxR inv price decimal =
      (inv * (tokensForStrategy minR maxR 1 price decimal).1,
       inv * (tokensForStrategy minR maxR 1 price decimal).2) := by
  simp only [tokensForStrategy]
  split_ifs <;> simp only [Prod.mk.injEq] <;> constructor <;> ring

/-- Helper: the liquidity computation is positively homogeneous in the token
amounts (the branch taken does not depend on them). -/
theorem liquidityForStrategy_smul (d0 d1 : ℤ) (price low high t0 t1 c : ℝ)
    (hc : 0 ≤ c) :
    liquidityForStrategy d0 d1 price low high (c * t0) (c * t1) =
      c * liquidityForStrategy d0 d1 price low high t0 t1 := by
  have hmin : ∀ x y : ℝ, min (c * x) (c * y) = c * min x y := by
    intro x y
    rcases le_total x y with h | h
    · rw [min_eq_left h, min_eq_left (mul_le_mul_of_nonneg_left h hc)]
    · rw [min_eq_right h, min_eq_right (mul_le_mul_of_nonneg_left h hc)]
  simp only [liquidityForStrategy]
  split_ifs
  · rw [mul_div_assoc]
  · rw [mul_div_assoc, mul_div_assoc, hmin]
  · rw [mul_div_assoc]

/-- Helper: with non-negative token amounts the liquidity computation returns
a non-negative value (in each branch every factor of the denominator is
non-negative thanks to the `min`/`max` normalization of the bounds and the
branch conditions). -/
theorem liquidityForStrategy_nonneg (d0 d1 : ℤ) (price low high t0 t1 : ℝ)
    (ht0 : 0 ≤ t0) (ht1 : 0 ≤ t1) :
    0 ≤ liquidityForStrategy d0 d1 price low high t0 t1 := by
  have ha : (0 : ℝ) ≤
      Real.sqrt (low * (10 : ℝ) ^ (d0 - d1)) * 2 ^ (96 : ℕ) := by positivity
  have hb : (0 : ℝ) ≤
      Real.sqrt (high * (10 : ℝ) ^ (d0 - d1)) * 2 ^ (96 : ℕ) := by positivity
  have hP : (0 : ℝ) ≤
      Real.sqrt (price * (10 : ℝ) ^ (d0 - d1)) * 2 ^ (96 : ℕ) := by positivity
  have hd0 : (0 : ℝ) ≤ (10 : ℝ) ^ d0 := (zpow_pos (by norm_num) d0).le
  have hd1 : (0 : ℝ) ≤ (10 : ℝ) ^ d1 := (zpow_pos (by norm_num) d1).le
  have hmin : (0 : ℝ) ≤
      min (Real.sqrt (low * (10 : ℝ) ^ (d0 - d1)) * 2 ^ (96 : ℕ))
        (Real.sqrt (high * (10 : ℝ) ^ (d0 - d1)) * 2 ^ (96 : ℕ)) :=
    le_min ha hb
  have hmm :
      min (Real.sqrt (low * (10 : ℝ) ^ (d0 - d1)) * 2 ^ (96 : ℕ))
        (Real.sqrt (high * (10 : ℝ) ^ (d0 - d1)) * 2 ^ (96 : ℕ)) ≤
      max (Real.sqrt (low * (10 : ℝ) ^ (d0 - d1)) * 2 ^ (96 : ℕ))
        (Real.sqrt (high * (10 : ℝ) ^ (d0 - d1)) * 2 ^ (96 : ℕ)) := min_le_max
  simp only [liquidityForStrategy]
  split_ifs with hA hB
  · refine div_nonneg ht0 ?_
    refine div_nonneg (div_nonneg (div_nonneg ?_ ?_) hmin) hd0
    · exact mul_nonneg (by norm_num) (by linarith)
    · linarith [hmin, hmm]
  · refine le_min (div_nonneg ht1 ?_) (div_nonneg ht0 ?_)
    · refine div_nonneg (div_nonneg ?_ (by norm_num)) hd1
      linarith [hB.2]
    · refine div_nonneg (div_nonneg (div_nonneg ?_ ?_) hP) hd1
      · exact mul_nonneg (by norm_num) (by linarith [hB.1])
      · linarith [hmin, hmm]
  · refine div_nonneg ht1 ?_
    refine div_nonneg (div_nonneg ?_ (by norm_num)) hd0
    linarith [hmin, hmm]

/-- Helper: with positive lower bound, ordered bounds, positive price and a
non-negative investment, both allocated token amounts are non-negative. -/
theorem tokensForStrategy_amounts_nonneg (minR maxR inv price : ℝ)
    (decimal : ℤ) (h1 : 0 < minR) (h2 : minR < maxR) (h3 : 0 ≤ inv)
    (hp : 0 < price) :
    0 ≤ (tokensForStrategy minR maxR inv price decimal).1 ∧
    0 ≤ (tokensForStrategy minR maxR inv price decimal).2 := by
  have hE : (0 : ℝ) < (10 : ℝ) ^ decimal := zpow_pos (by norm_num) _
  have hLpos : 0 < Real.sqrt (minR * (10 : ℝ) ^ decimal) :=
    Real.sqrt_pos.mpr (mul_pos h1 hE)
  have hHpos : 0 < Real.sqrt (maxR * (10 : ℝ) ^ decimal) :=
    Real.sqrt_pos.mpr (mul_pos (h1.trans h2) hE)
  have hLH : Real.sqrt (minR * (10 : ℝ) ^ decimal) <
      Real.sqrt (maxR * (10 : ℝ) ^ decimal) :=
    Real.sqrt_lt_sqrt (mul_pos h1 hE).le (mul_lt_mul_of_pos_right h2 hE)
  simp only [tokensForStrategy]
  split_ifs with hA hB
  · have hPpos : 0 < Real.sqrt (price * (10 : ℝ) ^ decimal) :=
      hLpos.trans hA.1
    have hfrac : 1 / Real.sqrt (maxR * (10 : ℝ) ^ decimal) <
        1 / Real.sqrt (price * (10 : ℝ) ^ decimal) :=
      one_div_lt_one_div_of_lt hPpos hA.2
    have hsq : Real.sqrt (price * (10 : ℝ) ^ decimal) *
        Real.sqrt (price * (10 : ℝ) ^ decimal) = price * (10 : ℝ) ^ decimal :=
      Real.mul_self_sqrt (by positivity)
    have hD : 0 < Real.sqrt (price * (10 : ℝ) ^ decimal) -
        Real.sqrt (minR * (10 : ℝ) ^ decimal) +
        (1 / Real.sqrt (price * (10 : ℝ) ^ decimal) -
          1 / Real.sqrt (maxR * (10 : ℝ) ^ decimal)) *
          (price * (10 : ℝ) ^ decimal) := by
      have t2 : 0 < (1 / Real.sqrt (price * (10 : ℝ) ^ decimal) -
          1 / Real.sqrt (maxR * (10 : ℝ) ^ decimal)) *
          (price * (10 : ℝ) ^ decimal) :=
        mul_pos (by linarith) (by positivity)
      have t1 : 0 < Real.sqrt (price * (10 : ℝ) ^ decimal) -
          Real.sqrt (minR * (10 : ℝ) ^ decimal) := by linarith [hA.1]
      linarith
    constructor
    · exact mul_nonneg (mul_nonneg (div_nonneg h3 hD.le) (by linarith)) hE.le
    · exact mul_nonneg (div_nonneg h3 hD.le) (by linarith [hA.1])
  · have hden : 0 < (1 / Real.sqrt (minR * (10 : ℝ) ^ decimal) -
        1 / Real.sqrt (maxR * (10 : ℝ) ^ decimal)) * price := by
      refine mul_pos ?_ hp
      have := one_div_lt_one_div_of_lt hLpos hLH
      linarith
    constructor
    · exact mul_nonneg (div_nonneg h3 hden.le) (by
        have := one_div_lt_one_div_of_lt hLpos hLH
        linarith)
    · exact le_refl 0
  · constructor
    · exact le_refl 0
    · exact mul_nonneg (div_nonneg h3 (by linarith)) (by linarith)

/-- C7: for fixed bounds `0 < priceLower < priceUpper` and fixed positive
price, the liquidity produced by the allocation pipeline is monotone in the
investment. -/
theorem c7_pipeline_monotone (d0 d1 : ℤ) (minR maxR price inv1 inv2 : ℝ)
    (h1 : 0 < minR) (h2 : minR < maxR) (hp : 0 < price) (hi1 : 0 < inv1)
    (hi2 : inv1 < inv2) :
    allocationPipeline d0 d1 minR maxR price inv1 ≤
      allocationPipeline d0 d1 minR maxR price inv2 := by
  have hbase := tokensForStrategy_amounts_nonneg minR maxR 1 price (d0 - d1)
    h1 h2 (by norm_num) hp
  have key : ∀ inv : ℝ, 0 ≤ inv →
      allocationPipeline d0 d1 minR maxR price inv =
        inv * liquidityForStrategy d0 d1 price minR maxR
          (tokensForStrategy minR maxR 1 price (d0 - d1)).1
          (tokensForStrategy minR maxR 1 price (d0 - d1)).2 := by
    intro inv hinv
    unfold allocationPipeline
    rw [tokensForStrategy_smul]
    exact liquidityForStrategy_smul d0 d1 price minR maxR _ _ inv hinv
  rw [key inv1 hi1.le, key inv2 (hi1.trans hi2).le]
  exact mul_le_mul_of_nonneg_right hi2.le
    (liquidityForStrategy_nonneg d0 d1 price minR maxR _ _ hbase.1 hbase.2)

/-- Witness for C7 at bounds `1 < 4`, price `2`, investments `1 < 3`,
decimals `6`/`18`. -/
theorem c7_witness :
    allocationPipeline 6 18 1 4 2 1 ≤ allocationPipeline 6 18 1 4 2 3 :=
  c7_pipeline_monotone 6 18 1 4 2 1 3 (by norm_num) (by norm_num)
    (by norm_num) (by norm_num) (by norm_num)

/-! ### C8 -/

/-- Helper: with a positive tick spacing the computed tick range is ordered
(`min` of floor-multiples is below `max` of ceil-multiples). -/
theorem getPositionTickRange_ordered (d0 d1 : ℤ) (p : ℝ) (tick : ℤ)
    (pt : PositionType) (ts : ℝ) (hts : 0 < ts) :
    (getPositionTickRange d0 d1 p tick pt ts).tickLower ≤
      (getPositionTickRange d0 d1 p tick pt ts).tickUpper := by
  cases pt with
  | fullRange => norm_num [getPositionTickRange]
  | percent k =>
    simp only [getPositionTickRange]
    have key : ∀ x : ℝ, (⌊x / ts⌋ : ℝ) * ts ≤ (⌈x / ts⌉ : ℝ) * ts := by
      intro x
      refine mul_le_mul_of_nonneg_right ?_ hts.le
      exact_mod_cast Int.floor_le_ceil (x / ts)
    exact le_trans (min_le_left _ _) (le_trans (key _) (le_max_left _ _))

/-- Helper: for a `'k%'` position with `0 < k < 200` and a positive current
price, the computed price bounds satisfy `0 < priceLower < priceUpper`. -/
theorem getPositionTickRange_percent_bounds (d0 d1 : ℤ) (p : ℝ) (tick : ℤ)
    (k : ℤ) (ts : ℝ) (hp : 0 < p) (hk0 : 0 < k) (hk2 : k < 200) :
    0 < (getPositionTickRange d0 d1 p tick
        (PositionType.percent k) ts).priceLower ∧
    (getPositionTickRange d0 d1 p tick
        (PositionType.percent k) ts).priceLower <
      (getPositionTickRange d0 d1 p tick
        (PositionType.percent k) ts).priceUpper := by
  have hk0' : (0 : ℝ) < (k : ℝ) := by exact_mod_cast hk0
  have hk2' : (k : ℝ) < 200 := by exact_mod_cast hk2
  simp only [getPositionTickRange]
  constructor
  · exact mul_pos hp (by linarith)
  · exact mul_lt_mul_of_pos_left (by linarith) hp

/-- Helper: `calculateTokensAndLiquidity` leaves the position range
unchanged. -/
theorem calculateTokensAndLiquidity_positionRange (s : PositionState)
    (inv price : ℝ) :
    (calculateTokensAndLiquidity s inv price).positionRange =
      s.positionRange := by
  unfold calculateTokensAndLiquidity
  by_cases hft : s.positionType = PositionType.fullRange <;> simp [hft]

/-- Helper: with a positive investment and price, and valid price bounds for
ranged positions, the balances and the liquidity set by
`calculateTokensAndLiquidity` are non-negative. -/
theorem calculateTokensAndLiquidity_nonneg (s : PositionState)
    (inv price : ℝ) (hinv : 0 < inv) (hp : 0 < price)
    (hpt : ∀ k : ℤ, s.positionType = PositionType.percent k →
      0 < s.positionRange.priceLower ∧
      s.positionRange.priceLower < s.positionRange.priceUpper) :
    0 ≤ (calculateTokensAndLiquidity s inv price).usdcAmount ∧
    0 ≤ (calculateTokensAndLiquidity s inv price).btcAmount ∧
    0 ≤ (calculateTokensAndLiquidity s inv price).liquidityAmount := by
  unfold calculateTokensAndLiquidity
  by_cases hft : s.positionType = PositionType.fullRange
  · simp only [if_pos hft]
    refine ⟨by positivity, by positivity, ?_⟩
    exact liquidityForStrategy_nonneg s.token0Decimals s.token1Decimals
      price (price * 0.01) (price * 100) _ _ (by positivity) (by positivity)
  · obtain ⟨k, hk⟩ : ∃ k : ℤ, s.positionType = PositionType.percent k := by
      cases h : s.positionType with
      | fullRange => exact absurd h hft
      | percent k => exact ⟨k, rfl⟩
    obtain ⟨hpl, hplu⟩ := hpt k hk
    have ht := tokensForStrategy_amounts_nonneg s.positionRange.priceLower
      s.positionRange.priceUpper inv price
      (s.token0Decimals - s.token1Decimals) hpl hplu hinv.le hp
    have hl := liquidityForStrategy_nonneg s.token0Decimals s.token1Decimals
      price s.positionRange.priceLower s.positionRange.priceUpper _ _
      ht.1 ht.2
    simp only [if_neg hft]
    exact ⟨ht.2, ht.1, hl⟩

/-- C8: after construction and after every (non-closing) rebalance, with
positive investment/capital, prices, pool liquidity and tick spacing (and a
percentage width strictly between 0% and 200%, so the price bounds are
positive), the tick range is ordered and the liquidity and both token
balances are non-negative. -/
theorem c8_construction_rebalance_invariants (initialAmount : ℝ)
    (positionType : PositionType) (initialTick : ℤ)
    (initialTvl p0 p1 poolLiq : ℝ) (sym0 sym1 : String) (g : Granularity)
    (ts : ℝ) (d0 d1 : ℤ) (capr : Bool)
    (hA : 0 < initialAmount) (hp : 0 < p0) (hL : 0 < poolLiq)
    (hts : 0 < ts)
    (hpt : ∀ k : ℤ, positionType = PositionType.percent k →
      0 < k ∧ k < 200) :
    ((mkLiquidUnitPosition initialAmount positionType initialTick initialTvl
        p0 p1 poolLiq sym0 sym1 g ts d0 d1 capr).positionRange.tickLower ≤
      (mkLiquidUnitPosition initialAmount positionType initialTick initialTvl
        p0 p1 poolLiq sym0 sym1 g ts d0 d1 capr).positionRange.tickUpper ∧
     0 ≤ (mkLiquidUnitPosition initialAmount positionType initialTick
        initialTvl p0 p1 poolLiq sym0 sym1 g ts d0 d1 capr).liquidityAmount ∧
     0 ≤ (mkLiquidUnitPosition initialAmount positionType initialTick
        initialTvl p0 p1 poolLiq sym0 sym1 g ts d0 d1 capr).usdcAmount ∧
     0 ≤ (mkLiquidUnitPosition initialAmount positionType initialTick
        initialTvl p0 p1 poolLiq sym0 sym1 g ts d0 d1 capr).btcAmount) ∧
    (∀ (s : PositionState) (tick : ℤ) (tvl gas : ℝ),
      s.positionType = positionType → s.tickSpacing = ts →
      0 < s.currentPositionCapital + s.currentPositionFees →
      0 < s.currentToken0Price →
      ((rebalance s tick tvl gas false).positionRange.tickLower ≤
        (rebalance s tick tvl gas false).positionRange.tickUpper ∧
       0 ≤ (rebalance s tick tvl gas false).liquidityAmount ∧
       0 ≤ (rebalance s tick tvl gas false).usdcAmount ∧
       0 ≤ (rebalance s tick tvl gas false).btcAmount)) := by
  constructor
  · have hb : ∀ k : ℤ, positionType = PositionType.percent k →
        0 < (getPositionTickRange d0 d1 p0 initialTick positionType
          ts).priceLower ∧
        (getPositionTickRange d0 d1 p0 initialTick positionType
          ts).priceLower <
          (getPositionTickRange d0 d1 p0 initialTick positionType
            ts).priceUpper := by
      intro k hk
      subst hk
      exact getPositionTickRange_percent_bounds d0 d1 p0 initialTick k ts hp
        (hpt k rfl).1 (hpt k rfl).2
    unfold mkLiquidUnitPosition
    refine ⟨?_,
      (calculateTokensAndLiquidity_nonneg _ initialAmount p0 hA hp
        (by exact hb)).2.2,
      (calculateTokensAndLiquidity_nonneg _ initialAmount p0 hA hp
        (by exact hb)).1,
      (calculateTokensAndLiquidity_nonneg _ initialAmount p0 hA hp
        (by exact hb)).2.1⟩
    rw [calculateTokensAndLiquidity_positionRange]
    exact getPositionTickRange_ordered d0 d1 p0 initialTick positionType ts
      hts
  · intro s tick tvl gas hspt hsts hcap hprice
    have hts' : 0 < s.tickSpacing := by
      rw [hsts]
      exact hts
    have hb : ∀ k : ℤ, s.positionType = PositionType.percent k →
        0 < (getPositionTickRange s.token0Decimals s.token1Decimals
          s.currentToken0Price tick s.positionType s.tickSpacing).priceLower ∧
        (getPositionTickRange s.token0Decimals s.token1Decimals
          s.currentToken0Price tick s.positionType
          s.tickSpacing).priceLower <
          (getPositionTickRange s.token0Decimals s.token1Decimals
            s.currentToken0Price tick s.positionType
            s.tickSpacing).priceUpper := by
      intro k hk
      rw [hk]
      have hk' : positionType = PositionType.percent k := by
        rw [← hspt]
        exact hk
      exact getPositionTickRange_percent_bounds s.token0Decimals
        s.token1Decimals s.currentToken0Price tick k s.tickSpacing hprice
        (hpt k hk').1 (hpt k hk').2
    unfold rebalance
    by_cases hdp : 0 < s.currentPositionDataPoints
    · simp only [if_pos hdp, if_pos (show (false : Bool) = false from rfl)]
      refine ⟨?_,
        (calculateTokensAndLiquidity_nonneg _
          (s.currentPositionCapital + s.currentPositionFees)
          s.currentToken0Price hcap hprice (by exact hb)).2.2,
        (calculateTokensAndLiquidity_nonneg _
          (s.currentPositionCapital + s.currentPositionFees)
          s.currentToken0Price hcap hprice (by exact hb)).1,
        (calculateTokensAndLiquidity_nonneg _
          (s.currentPositionCapital + s.currentPositionFees)
          s.currentToken0Price hcap hprice (by exact hb)).2.1⟩
      rw [calculateTokensAndLiquidity_positionRange]
      exact getPositionTickRange_ordered s.token0Decimals s.token1Decimals
        s.currentToken0Price tick s.positionType s.tickSpacing hts'
    · simp only [if_neg hdp, if_pos (show (false : Bool) = false from rfl)]
      refine ⟨?_,
        (calculateTokensAndLiquidity_nonneg _
          (s.currentPositionCapital + s.currentPositionFees)
          s.currentToken0Price hcap hprice (by exact hb)).2.2,
        (calculateTokensAndLiquidity_nonneg _
          (s.currentPositionCapital + s.currentPositionFees)
          s.currentToken0Price hcap hprice (by exact hb)).1,
        (calculateTokensAndLiquidity_nonneg _
          (s.currentPositionCapital + s.currentPositionFees)
          s.currentToken0Price hcap hprice (by exact hb)).2.1⟩
      rw [calculateTokensAndLiquidity_positionRange]
      exact getPositionTickRange_ordered s.token0Decimals s.token1Decimals
        s.currentToken0Price tick s.positionType s.tickSpacing hts'

/-- Witness for C8 at a concrete `'50%'` construction. -/
theorem c8_witness :
    ((mkLiquidUnitPosition 1000 (PositionType.percent 50) 0 0 2 1 1000
        "cbBTC" "USDC" Granularity.daily 60 6 18 true).positionRange.tickLower ≤
      (mkLiquidUnitPosition 1000 (PositionType.percent 50) 0 0 2 1 1000
        "cbBTC" "USDC" Granularity.daily 60 6 18
        true).positionRange.tickUpper ∧
     0 ≤ (mkLiquidUnitPosition 1000 (PositionType.percent 50) 0 0 2 1 1000
        "cbBTC" "USDC" Granularity.daily 60 6 18 true).liquidityAmount ∧
     0 ≤ (mkLiquidUnitPosition 1000 (PositionType.percent 50) 0 0 2 1 1000
        "cbBTC" "USDC" Granularity.daily 60 6 18 true).usdcAmount ∧
     0 ≤ (mkLiquidUnitPosition 1000 (PositionType.percent 50) 0 0 2 1 1000
        "cbBTC" "USDC" Granularity.daily 60 6 18 true).btcAmount) ∧
    (∀ (s : PositionState) (tick : ℤ) (tvl gas : ℝ),
      s.positionType = PositionType.percent 50 → s.tickSpacing = 60 →
      0 < s.currentPositionCapital + s.currentPositionFees →
      0 < s.currentToken0Price →
      ((rebalance s tick tvl gas false).positionRange.tickLower ≤
        (rebalance s tick tvl gas false).positionRange.tickUpper ∧
       0 ≤ (rebalance s tick tvl gas false).liquidityAmount ∧
       0 ≤ (rebalance s tick tvl gas false).usdcAmount ∧
       0 ≤ (rebalance s tick tvl gas false).btcAmount)) :=
  c8_construction_rebalance_invariants 1000 (PositionType.percent 50) 0 0 2 1
    1000 "cbBTC" "USDC" Granularity.daily 60 6 18 true (by norm_num)
    (by norm_num) (by norm_num) (by norm_num)
    (fun k hk => by
      cases hk
      exact ⟨by norm_num, by norm_num⟩)

end PortfolioManager
